import Mathlib

/-!
Verification of the Heliox gateway-api portal and auth endpoints.

This file shallowly embeds the data model (`src/apps/gateway-api/src/models/`)
and the endpoint logic of `src/apps/gateway-api/src/api/portal.py` and
`src/apps/gateway-api/src/api/auth.py`.  The database session is modelled as
explicit lists of rows that each endpoint threads through; an endpoint that
raises `HTTPException` before any mutation returns the incoming rows
unchanged together with the error (SQLAlchemy's transaction is rolled back,
so the visible state is the original one).  Values produced by outside
oracles (bcrypt hashes, generated secrets, uuids, the current clock) are
passed in as parameters.  Python floats are modelled as exact rationals;
datetimes as integer numbers of seconds.
-/

namespace Heliox

/-- User roles, from `src/models/user.py` (`UserRole`). -/
inductive UserRole
  | ADMIN
  | OWNER
  | MEMBER
deriving DecidableEq

/-- Subscription plan, from `src/models/plan.py` (`Plan`); the fields the
portal and auth endpoints read, with the model's column defaults. -/
structure Plan where
  id : String
  name : String
  quota_daily : Int := 1000
  quota_monthly : Int := 10000
  rate_limit_rps : ℚ := 10
  rate_limit_burst : Int := 20
  max_api_keys : Int := 2
  max_routes : Int := 5
  cache_enabled : Bool := true
  is_default : Bool := false
deriving DecidableEq

/-- Tenant, from `src/models/tenant.py` (`Tenant`).  The `plan` field holds
the loaded `Tenant.plan` relationship (`None` when `plan_id` is null). -/
structure Tenant where
  id : String
  name : String
  description : Option String := none
  billing_email : Option String := none
  is_active : Bool := true
  plan : Option Plan := none
deriving DecidableEq

/-- User, from `src/models/user.py` (`User`).  The `tenant` field holds the
loaded `User.tenant` relationship.  Column defaults follow the model. -/
structure User where
  id : String
  email : String
  password_hash : Option String := none
  name : String
  avatar_url : Option String := none
  tenant_id : Option String := none
  role : UserRole := .MEMBER
  email_verified : Bool := false
  email_verification_token : Option String := none
  email_verification_expires : Option Int := none
  password_reset_token : Option String := none
  password_reset_expires : Option Int := none
  is_active : Bool := true
  tenant : Option Tenant := none
deriving DecidableEq

/-- `User.is_admin` property from `src/models/user.py`. -/
def User.is_admin (u : User) : Bool := u.role == .ADMIN

/-- `User.is_owner` property from `src/models/user.py`. -/
def User.is_owner (u : User) : Bool := u.role == .OWNER

/-- `User.can_manage_tenant` property from `src/models/user.py`:
`self.role in (UserRole.ADMIN, UserRole.OWNER)`. -/
def User.can_manage_tenant (u : User) : Bool :=
  u.role == .ADMIN || u.role == .OWNER

/-- `User.can_manage_billing` property from `src/models/user.py`:
`self.role in (UserRole.ADMIN, UserRole.OWNER)`. -/
def User.can_manage_billing (u : User) : Bool :=
  u.role == .ADMIN || u.role == .OWNER

/-- Modelled from the spec: `src/models/api_key.py` is referenced by
`portal.py` but is not among the sources; the spec's data model says an
ApiKey "has status ∈ \x7bactive, disabled\x7d". -/
inductive ApiKeyStatus
  | ACTIVE
  | DISABLED
deriving DecidableEq

/-- The `.value` of the status enum member, as serialized by `portal.py`. -/
def ApiKeyStatus.value : ApiKeyStatus → String
  | .ACTIVE => "active"
  | .DISABLED => "disabled"

/-- Modelled from the spec: `src/models/api_key.py` is not among the
sources.  Fields are the columns `portal.py` reads and writes; an ApiKey
"carries its own quota/rate overrides" and a secret plus its prefix. -/
structure ApiKey where
  id : String
  tenant_id : String
  name : String
  key : String
  key_prefix : String
  status : ApiKeyStatus := .ACTIVE
  quota_daily : Int
  quota_monthly : Int
  rate_limit_rps : ℚ
  rate_limit_burst : Int
  created_at : Int
  last_used_at : Option Int := none
deriving DecidableEq

/-- Modelled from the spec: `src/models/api_key.py` is not among the
sources; the spec says "`is_active` derives from status". -/
def ApiKey.is_active (k : ApiKey) : Bool := k.status == .ACTIVE

/-- FastAPI `HTTPException(status_code=..., detail=...)`. -/
structure HTTPException where
  status_code : Nat
  detail : String
deriving DecidableEq

/-- Response schema `PortalApiKey` from `portal.py`. -/
structure PortalApiKey where
  id : String
  name : String
  key_prefix : String
  key : Option String := none
  status : String
  is_active : Bool
  quota_daily : Int
  quota_monthly : Int
  rate_limit_rps : Option ℚ
  created_at : Int
  last_used_at : Option Int
deriving DecidableEq

/-- Response schema `UsageSummary` from `portal.py`. -/
structure UsageSummary where
  daily_requests : Nat
  monthly_requests : Nat
  daily_limit : Int
  monthly_limit : Int
  daily_percent : ℚ
  monthly_percent : ℚ
  cache_hit_rate : ℚ
  avg_latency_ms : ℚ
  error_rate : ℚ
deriving DecidableEq

/-- The `PortalApiKey(...)` construction every key endpoint performs
(`key` is included only by create and rotate, as `full`). -/
def ApiKey.toPortal (k : ApiKey) (full : Option String) : PortalApiKey :=
  { id := k.id
    name := k.name
    key_prefix := ApiKey.key_prefix k
    key := full
    status := k.status.value
    is_active := k.is_active
    quota_daily := k.quota_daily
    quota_monthly := k.quota_monthly
    rate_limit_rps := some k.rate_limit_rps
    created_at := k.created_at
    last_used_at := k.last_used_at }

/-- `require_tenant` from `portal.py`. -/
def require_tenant (user : User) : Except HTTPException Tenant :=
  match user.tenant with
  | none => .error ⟨400, "No organization associated with your account"⟩
  | some t => .ok t

/-- The row filter `ApiKey.id == key_id` and `ApiKey.tenant_id == tenant.id`
shared by the rotate/toggle/delete queries in `portal.py`. -/
def keyQuery (key_id tenant_id : String) (k : ApiKey) : Bool :=
  k.id == key_id && ApiKey.tenant_id k == tenant_id

/-- In-place mutation of the selected ORM rows: rows satisfying `p` are
replaced by their image under `f`. -/
def updateWhere (p : ApiKey → Bool) (f : ApiKey → ApiKey) : List ApiKey → List ApiKey :=
  List.map (fun k => if p k then f k else k)

/-- `create_api_key` from `portal.py` (POST `/portal/keys`).  `gen_id`,
`gen_key` and `now` stand for the generated uuid, the `generate_api_key()`
secret and the row's creation timestamp. -/
def create_api_key (keys : List ApiKey) (user : User) (key_name : String)
    (gen_id gen_key : String) (now : Int) :
    List ApiKey × Except HTTPException PortalApiKey :=
  match require_tenant user with
  | .error e => (keys, .error e)
  | .ok tenant =>
    let plan := tenant.plan
    let current_count : Int := (keys.filter (fun k => k.tenant_id == tenant.id)).length
    let max_keys : Int := match plan with | some p => p.max_api_keys | none => 2
    if max_keys > 0 ∧ current_count ≥ max_keys then
      (keys, .error ⟨403, "Plan limit reached: Your plan allows max " ++ toString max_keys
        ++ " API keys. Upgrade to create more."⟩)
    else
      let quota_daily : Int := match plan with | some p => p.quota_daily | none => 1000
      let quota_monthly : Int := match plan with | some p => p.quota_monthly | none => 10000
      let rate_limit_rps : ℚ := match plan with | some p => p.rate_limit_rps | none => 10
      let rate_limit_burst : Int := match plan with | some p => p.rate_limit_burst | none => 20
      let api_key : ApiKey :=
        { id := gen_id
          tenant_id := tenant.id
          name := key_name
          key := gen_key
          key_prefix := gen_key.take 10
          status := .ACTIVE
          quota_daily := quota_daily
          quota_monthly := quota_monthly
          rate_limit_rps := rate_limit_rps
          rate_limit_burst := rate_limit_burst
          created_at := now
          last_used_at := none }
      (keys ++ [api_key], .ok (api_key.toPortal (some api_key.key)))

/-- `rotate_api_key` from `portal.py` (POST `/portal/keys/.../rotate`).
`new_key` stands for the fresh `generate_api_key()` secret. -/
def rotate_api_key (keys : List ApiKey) (user : User) (key_id new_key : String) :
    List ApiKey × Except HTTPException PortalApiKey :=
  match require_tenant user with
  | .error e => (keys, .error e)
  | .ok tenant =>
    match keys.find? (keyQuery key_id tenant.id) with
    | none => (keys, .error ⟨404, "API key not found"⟩)
    | some api_key =>
      let rotated := { api_key with key := new_key, key_prefix := new_key.take 10 }
      (updateWhere (keyQuery key_id tenant.id)
        (fun k => { k with key := new_key, key_prefix := new_key.take 10 }) keys,
       .ok (rotated.toPortal (some rotated.key)))

/-- The status flip performed by `toggle_api_key`. -/
def toggleStatus (s : ApiKeyStatus) : ApiKeyStatus :=
  if s == .ACTIVE then .DISABLED else .ACTIVE

/-- `toggle_api_key` from `portal.py` (PATCH `/portal/keys/.../toggle`). -/
def toggle_api_key (keys : List ApiKey) (user : User) (key_id : String) :
    List ApiKey × Except HTTPException PortalApiKey :=
  match require_tenant user with
  | .error e => (keys, .error e)
  | .ok tenant =>
    match keys.find? (keyQuery key_id tenant.id) with
    | none => (keys, .error ⟨404, "API key not found"⟩)
    | some api_key =>
      let toggled := { api_key with status := toggleStatus api_key.status }
      (updateWhere (keyQuery key_id tenant.id)
        (fun k => { k with status := toggleStatus k.status }) keys,
       .ok (toggled.toPortal none))

/-- `delete_api_key` from `portal.py` (DELETE `/portal/keys/...`);
`db.delete` removes the single row the query fetched. -/
def delete_api_key (keys : List ApiKey) (user : User) (key_id : String) :
    List ApiKey × Except HTTPException String :=
  match require_tenant user with
  | .error e => (keys, .error e)
  | .ok tenant =>
    match keys.find? (keyQuery key_id tenant.id) with
    | none => (keys, .error ⟨404, "API key not found"⟩)
    | some _ =>
      (keys.eraseP (keyQuery key_id tenant.id), .ok "API key deleted")

/-- `get_usage` from `portal.py` (GET `/portal/usage`).  The request-log
aggregates (`COUNT`s and `AVG`) are passed in as the values the queries
return. -/
def get_usage (user : User) (daily_requests monthly_requests : Nat)
    (stats_total cache_hits errors : Nat) (avg_latency : ℚ) :
    Except HTTPException UsageSummary :=
  match require_tenant user with
  | .error e => .error e
  | .ok tenant =>
    let plan := tenant.plan
    let daily_limit : Int := match plan with | some p => p.quota_daily | none => 1000
    let monthly_limit : Int := match plan with | some p => p.quota_monthly | none => 10000
    let daily_percent : ℚ :=
      if daily_limit > 0 then (daily_requests : ℚ) / (daily_limit : ℚ) * 100 else 0
    let monthly_percent : ℚ :=
      if monthly_limit > 0 then (monthly_requests : ℚ) / (monthly_limit : ℚ) * 100 else 0
    let total := stats_total
    let cache_hit_rate : ℚ := if total > 0 then (cache_hits : ℚ) / (total : ℚ) else 0
    let error_rate : ℚ := if total > 0 then (errors : ℚ) / (total : ℚ) else 0
    .ok
      { daily_requests := daily_requests
        monthly_requests := monthly_requests
        daily_limit := daily_limit
        monthly_limit := monthly_limit
        daily_percent := min daily_percent 100
        monthly_percent := min monthly_percent 100
        cache_hit_rate := cache_hit_rate
        avg_latency_ms := avg_latency
        error_rate := error_rate }

/-- `get_current_admin` from `auth.py`. -/
def get_current_admin (user : User) : Except HTTPException User :=
  if !user.is_admin then .error ⟨403, "Admin access required"⟩ else .ok user

/-- Request schema `SignupRequest` from `auth.py`. -/
structure SignupRequest where
  email : String
  password : String
  name : String
  company_name : String
deriving DecidableEq

/-- Response schema `SignupResponse` from `auth.py`. -/
structure SignupResponse where
  message : String
  email : String
  requires_verification : Bool := true
deriving DecidableEq

/-- The tables the auth endpoints touch. -/
structure AuthDB where
  users : List User
  tenants : List Tenant
  plans : List Plan
deriving DecidableEq

/-- Python truthiness of an optional string column (`None` and `""` are
falsy). -/
def truthyStr : Option String → Bool
  | none => false
  | some s => !(s == "")

/-- `signup` from `auth.py` (POST `/auth/signup`).  `hash_password` stands
for bcrypt hashing, `otp` for `generate_otp()`, `gen_tenant_id` /
`gen_user_id` for the generated uuids and `now` for the current clock in
seconds (so `timedelta(minutes=10)` is 600). -/
def signup (db : AuthDB) (data : SignupRequest) (hash_password : String → String)
    (otp gen_tenant_id gen_user_id : String) (now : Int) :
    AuthDB × Except HTTPException SignupResponse :=
  match db.users.find? (fun u => u.email == data.email) with
  | some existing_user =>
    if !existing_user.email_verified then
      ({ db with users := db.users.map (fun u =>
          if u.email == data.email then
            { u with
                email_verification_token := some otp
                email_verification_expires := some (now + 600)
                password_hash := some (hash_password data.password)
                name := data.name }
          else u) },
       .ok { message := "Verification code sent to your email"
             email := data.email
             requires_verification := true })
    else
      (db, .error ⟨400, "Email already registered"⟩)
  | none =>
    match db.tenants.find? (fun t => t.name == data.company_name) with
    | some _ => (db, .error ⟨400, "Company name already taken"⟩)
    | none =>
      let plan := db.plans.find? (fun p => p.is_default)
      let tenant : Tenant :=
        { id := gen_tenant_id
          name := data.company_name
          billing_email := some data.email
          plan := plan }
      let user : User :=
        { id := gen_user_id
          email := data.email
          password_hash := some (hash_password data.password)
          name := data.name
          tenant_id := some tenant.id
          role := .OWNER
          email_verified := false
          email_verification_token := some otp
          email_verification_expires := some (now + 600) }
      ({ db with users := db.users ++ [user], tenants := db.tenants ++ [tenant] },
       .ok { message := "Verification code sent to your email"
             email := data.email
             requires_verification := true })

/-- `forgot_password` from `auth.py` (POST `/auth/forgot-password`).
`gen_token` stands for `secrets.token_urlsafe(32)`; `timedelta(hours=1)` is
3600 seconds.  The endpoint always answers with the same message. -/
def forgot_password (db : AuthDB) (email : String) (gen_token : String) (now : Int) :
    AuthDB × String :=
  match db.users.find? (fun u => u.email == email) with
  | some user =>
    if truthyStr user.password_hash then
      ({ db with users := db.users.map (fun u =>
          if u.email == email then
            { u with
                password_reset_token := some gen_token
                password_reset_expires := some (now + 3600) }
          else u) },
       "If your email is registered, you will receive a password reset link")
    else
      (db, "If your email is registered, you will receive a password reset link")
  | none =>
    (db, "If your email is registered, you will receive a password reset link")

/-- Modelled from the spec: the Rate Limiter component (spec §4.1) is not
among the sources.  Token-bucket state per API key:
`\x7btokens, capacity: burst, refill_rate: rps, last_refill\x7d`. -/
structure Bucket where
  tokens : ℚ
  capacity : ℚ
  refill_rate : ℚ
  last_refill : ℚ
deriving DecidableEq

/-- Modelled from the spec: the admission decision of the Rate Limiter; a
rejection carries `retry_after`. -/
inductive RateDecision
  | admitted
  | rateLimited (retry_after : ℚ)
deriving DecidableEq

/-- Modelled from the spec (§4.1): on each request advance
`tokens = min(capacity, tokens + elapsed_seconds * refill_rate)`; if
`tokens >= 1`, decrement and admit; else reject with
`retry_after = (1 - tokens) / refill_rate`. -/
def Bucket.request (b : Bucket) (now : ℚ) : Bucket × RateDecision :=
  let elapsed := now - b.last_refill
  let tokens := min b.capacity (b.tokens + elapsed * b.refill_rate)
  if 1 ≤ tokens then
    ({ b with tokens := tokens - 1, last_refill := now }, .admitted)
  else
    ({ b with tokens := tokens, last_refill := now },
     .rateLimited ((1 - tokens) / b.refill_rate))

/-- Feeding a sequence of request timestamps through one bucket, collecting
the decisions. -/
def Bucket.serve (b : Bucket) : List ℚ → Bucket × List RateDecision
  | [] => (b, [])
  | t :: ts =>
    let step := b.request t
    let rest := step.1.serve ts
    (rest.1, step.2 :: rest.2)

/-! ### Helper lemmas and sample fixtures -/

/-- A loaded tenant relationship makes `require_tenant` succeed. -/
theorem require_tenant_ok {user : User} {t : Tenant} (h : user.tenant = some t) :
    require_tenant user = .ok t := by
  simp [require_tenant, h]

/-- The boolean row filter agrees with the propositional membership test. -/
theorem keyQuery_eq_true {key_id tenant_id : String} {k : ApiKey} :
    keyQuery key_id tenant_id k = true ↔ k.id = key_id ∧ k.tenant_id = tenant_id := by
  simp [keyQuery]

/-- Sample plan row (the predefined Free plan). -/
def planFree : Plan := { id := "plan-free", name := "Free", is_default := true }

/-- Sample tenant on the Free plan. -/
def tenantAcme : Tenant := { id := "tenant-1", name := "Acme", plan := some planFree }

/-- Sample tenant owner with the tenant relationship loaded. -/
def ownerUser : User :=
  { id := "user-1", email := "owner@acme.test", name := "Owner"
    role := .OWNER, email_verified := true, tenant := some tenantAcme }

/-- Sample stored API key of `tenantAcme`. -/
def sampleKey : ApiKey :=
  { id := "key-1", tenant_id := "tenant-1", name := "default"
    key := "hx_0123456789abcdef", key_prefix := "hx_0123456"
    status := .ACTIVE, quota_daily := 1000, quota_monthly := 10000
    rate_limit_rps := 10, rate_limit_burst := 20, created_at := 0 }

/-! ### Claims -/

/-- C7: `can_manage_tenant` and `can_manage_billing` hold exactly for roles
admin and owner (a membership test over the role), and `get_current_admin`
returns the user unchanged exactly for admins and raises HTTP 403 with
"Admin access required" exactly otherwise. -/
theorem C7_role_capabilities (u : User) :
    (u.can_manage_tenant = true ↔ (u.role = .ADMIN ∨ u.role = .OWNER)) ∧
    (u.can_manage_billing = true ↔ (u.role = .ADMIN ∨ u.role = .OWNER)) ∧
    (get_current_admin u = .ok u ↔ u.role = .ADMIN) ∧
    (get_current_admin u = .error ⟨403, "Admin access required"⟩ ↔ u.role ≠ .ADMIN) := by
  cases h : u.role <;>
    simp [User.can_manage_tenant, User.can_manage_billing, get_current_admin,
      User.is_admin, h]

/-- Witness for C7 at a concrete owner and a concrete member. -/
theorem C7_role_capabilities_witness :
    ownerUser.can_manage_tenant = true ∧
    get_current_admin ownerUser = .error ⟨403, "Admin access required"⟩ := by
  refine ⟨(C7_role_capabilities ownerUser).1.mpr (Or.inr rfl), ?_⟩
  exact (C7_role_capabilities ownerUser).2.2.2.mpr (by decide)

/-- C1: for an authenticated user with a tenant, rotate/toggle/delete answer
HTTP 404 "API key not found" exactly when no stored ApiKey has the requested
id and the user's tenant id (so also for a key id owned by another tenant),
and in the 404 case the stored rows are unchanged: nothing is modified or
deleted. -/
theorem C1_key_endpoints_404_iff_no_such_key (user : User) (t : Tenant)
    (keys : List ApiKey) (key_id new_key : String) (h : user.tenant = some t) :
    ((rotate_api_key keys user key_id new_key).2 = .error ⟨404, "API key not found"⟩ ↔
      ∀ k ∈ keys, ¬(k.id = key_id ∧ k.tenant_id = t.id)) ∧
    ((toggle_api_key keys user key_id).2 = .error ⟨404, "API key not found"⟩ ↔
      ∀ k ∈ keys, ¬(k.id = key_id ∧ k.tenant_id = t.id)) ∧
    ((delete_api_key keys user key_id).2 = .error ⟨404, "API key not found"⟩ ↔
      ∀ k ∈ keys, ¬(k.id = key_id ∧ k.tenant_id = t.id)) ∧
    ((∀ k ∈ keys, ¬(k.id = key_id ∧ k.tenant_id = t.id)) →
      (rotate_api_key keys user key_id new_key).1 = keys ∧
      (toggle_api_key keys user key_id).1 = keys ∧
      (delete_api_key keys user key_id).1 = keys) := by
  have hreq : require_tenant user = .ok t := require_tenant_ok h
  cases hf : keys.find? (keyQuery key_id t.id) with
  | none =>
    have hnone : ∀ k ∈ keys, ¬(k.id = key_id ∧ k.tenant_id = t.id) := by
      intro k hk
      have hb := List.find?_eq_none.mp hf k hk
      simpa [keyQuery_eq_true] using hb
    simp [rotate_api_key, toggle_api_key, delete_api_key, hreq, hf, hnone]
    intro k hk h1 h2
    exact hnone k hk ⟨h1, h2⟩
  | some a =>
    have ha : a ∈ keys := List.mem_of_find?_eq_some hf
    have hpa : a.id = key_id ∧ a.tenant_id = t.id :=
      keyQuery_eq_true.mp (List.find?_some hf)
    simp [rotate_api_key, toggle_api_key, delete_api_key, hreq, hf]
    exact ⟨⟨a, ha, hpa.1, hpa.2⟩, fun hall => absurd hpa.2 (hall a ha hpa.1)⟩

/-- Witness for C1: a key id that exists under a different tenant answers
404 and leaves the stored rows alone. -/
theorem C1_key_endpoints_404_iff_no_such_key_witness :
    (rotate_api_key [{ sampleKey with tenant_id := "tenant-2" }] ownerUser
        "key-1" "hx_fresh").2 = .error ⟨404, "API key not found"⟩ ∧
    (delete_api_key [{ sampleKey with tenant_id := "tenant-2" }] ownerUser
        "key-1").1 = [{ sampleKey with tenant_id := "tenant-2" }] := by
  have h := C1_key_endpoints_404_iff_no_such_key ownerUser tenantAcme
    [{ sampleKey with tenant_id := "tenant-2" }] "key-1" "hx_fresh" rfl
  have hnone : ∀ k ∈ [{ sampleKey with tenant_id := "tenant-2" }],
      ¬(k.id = "key-1" ∧ k.tenant_id = tenantAcme.id) := by decide
  exact ⟨h.1.mpr hnone, (h.2.2.2 hnone).2.2⟩

/-- C2: whenever `create_api_key` succeeds, the stored new ApiKey's
`quota_daily`, `quota_monthly`, `rate_limit_rps` and `rate_limit_burst`
equal the tenant's plan's values, and when the tenant has no plan they equal
the global defaults 1000, 10000, 10.0 and 20 — the key's limits are always
defined. -/
theorem C2_create_key_plan_defaults (keys : List ApiKey) (user : User) (t : Tenant)
    (key_name gen_id gen_key : String) (now : Int) (h : user.tenant = some t)
    (hsucc : ∃ pk, (create_api_key keys user key_name gen_id gen_key now).2 = .ok pk) :
    ∃ newk : ApiKey,
      (create_api_key keys user key_name gen_id gen_key now).1 = keys ++ [newk] ∧
      (∀ p : Plan, t.plan = some p →
        newk.quota_daily = p.quota_daily ∧ newk.quota_monthly = p.quota_monthly ∧
        newk.rate_limit_rps = p.rate_limit_rps ∧
        newk.rate_limit_burst = p.rate_limit_burst) ∧
      (t.plan = none →
        newk.quota_daily = 1000 ∧ newk.quota_monthly = 10000 ∧
        newk.rate_limit_rps = 10 ∧ newk.rate_limit_burst = 20) := by
  have hreq : require_tenant user = .ok t := require_tenant_ok h
  obtain ⟨pk, hpk⟩ := hsucc
  simp only [create_api_key, hreq] at hpk ⊢
  split at hpk
  · simp at hpk
  next hcond =>
    rw [if_neg hcond]
    refine ⟨_, rfl, ?_, ?_⟩
    · intro p hp
      simp [hp]
    · intro hp
      simp [hp]

/-- Witness for C2 on a concrete tenant whose plan is the Free plan. -/
theorem C2_create_key_plan_defaults_witness :
    ∃ newk : ApiKey,
      (create_api_key [] ownerUser "service" "key-9" "hx_secret9" 0).1 = [] ++ [newk] ∧
      (∀ p : Plan, tenantAcme.plan = some p →
        newk.quota_daily = p.quota_daily ∧ newk.quota_monthly = p.quota_monthly ∧
        newk.rate_limit_rps = p.rate_limit_rps ∧
        newk.rate_limit_burst = p.rate_limit_burst) ∧
      (tenantAcme.plan = none →
        newk.quota_daily = 1000 ∧ newk.quota_monthly = 10000 ∧
        newk.rate_limit_rps = 10 ∧ newk.rate_limit_burst = 20) :=
  C2_create_key_plan_defaults [] ownerUser tenantAcme "service" "key-9" "hx_secret9" 0
    rfl ⟨_, rfl⟩

/-- C3: `create_api_key` answers HTTP 403 exactly when the effective
`max_api_keys` (the plan's value, 2 for a plan-less tenant) is positive and
the tenant already owns at least that many keys; a non-positive
`max_api_keys` never rejects (0 = unlimited).  On rejection no key is
created; otherwise exactly one key is appended for the tenant. -/
theorem C3_create_key_limit (keys : List ApiKey) (user : User) (t : Tenant)
    (key_name gen_id gen_key : String) (now : Int) (h : user.tenant = some t) :
    ((∃ e, (create_api_key keys user key_name gen_id gen_key now).2 = .error e ∧
        e.status_code = 403) ↔
      ((match t.plan with | some p => p.max_api_keys | none => 2) > 0 ∧
        ((keys.filter (fun k => k.tenant_id == t.id)).length : Int) ≥
          (match t.plan with | some p => p.max_api_keys | none => 2))) ∧
    (((match t.plan with | some p => p.max_api_keys | none => 2) > 0 ∧
        ((keys.filter (fun k => k.tenant_id == t.id)).length : Int) ≥
          (match t.plan with | some p => p.max_api_keys | none => 2)) →
      (create_api_key keys user key_name gen_id gen_key now).1 = keys) ∧
    (¬((match t.plan with | some p => p.max_api_keys | none => 2) > 0 ∧
        ((keys.filter (fun k => k.tenant_id == t.id)).length : Int) ≥
          (match t.plan with | some p => p.max_api_keys | none => 2)) →
      ∃ newk : ApiKey,
        (create_api_key keys user key_name gen_id gen_key now).1 = keys ++ [newk] ∧
        newk.tenant_id = t.id) := by
  have hreq : require_tenant user = .ok t := require_tenant_ok h
  by_cases hcond : (match t.plan with | some p => p.max_api_keys | none => 2) > 0 ∧
      ((keys.filter (fun k => k.tenant_id == t.id)).length : Int) ≥
        (match t.plan with | some p => p.max_api_keys | none => 2)
  · simp [create_api_key, hreq, hcond]
  · simp only [create_api_key, hreq, if_neg hcond]
    refine ⟨by simp [hcond], fun hc => absurd hc hcond, fun _ => ⟨_, rfl, rfl⟩⟩

/-- Witness for C3: with no existing keys and the Free plan's limit of 2,
no 403 is raised and one key is appended. -/
theorem C3_create_key_limit_witness :
    ((∃ e, (create_api_key [] ownerUser "svc" "key-9" "hx_secret9" 0).2 = .error e ∧
        e.status_code = 403) ↔
      ((match tenantAcme.plan with | some p => p.max_api_keys | none => 2) > 0 ∧
        ((([] : List ApiKey).filter (fun k => k.tenant_id == tenantAcme.id)).length : Int) ≥
          (match tenantAcme.plan with | some p => p.max_api_keys | none => 2))) ∧
    (((match tenantAcme.plan with | some p => p.max_api_keys | none => 2) > 0 ∧
        ((([] : List ApiKey).filter (fun k => k.tenant_id == tenantAcme.id)).length : Int) ≥
          (match tenantAcme.plan with | some p => p.max_api_keys | none => 2)) →
      (create_api_key [] ownerUser "svc" "key-9" "hx_secret9" 0).1 = []) ∧
    (¬((match tenantAcme.plan with | some p => p.max_api_keys | none => 2) > 0 ∧
        ((([] : List ApiKey).filter (fun k => k.tenant_id == tenantAcme.id)).length : Int) ≥
          (match tenantAcme.plan with | some p => p.max_api_keys | none => 2)) →
      ∃ newk : ApiKey,
        (create_api_key [] ownerUser "svc" "key-9" "hx_secret9" 0).1 = [] ++ [newk] ∧
        newk.tenant_id = tenantAcme.id) :=
  C3_create_key_limit [] ownerUser tenantAcme "svc" "key-9" "hx_secret9" 0 rfl

/-- C4: `get_usage` reports `daily_percent = min(100, daily_requests /
daily_limit * 100)` when `daily_limit > 0` and `0` when `daily_limit = 0`
(unlimited), and likewise for `monthly_percent`. -/
theorem C4_usage_percentages (user : User) (t : Tenant) (h : user.tenant = some t)
    (daily_requests monthly_requests stats_total cache_hits errors : Nat)
    (avg_latency : ℚ) :
    ∃ u : UsageSummary,
      get_usage user daily_requests monthly_requests stats_total cache_hits errors
        avg_latency = .ok u ∧
      (u.daily_limit > 0 →
        u.daily_percent = min 100 ((daily_requests : ℚ) / (u.daily_limit : ℚ) * 100)) ∧
      (u.daily_limit = 0 → u.daily_percent = 0) ∧
      (u.monthly_limit > 0 →
        u.monthly_percent =
          min 100 ((monthly_requests : ℚ) / (u.monthly_limit : ℚ) * 100)) ∧
      (u.monthly_limit = 0 → u.monthly_percent = 0) := by
  have hreq : require_tenant user = .ok t := require_tenant_ok h
  simp only [get_usage, hreq]
  refine ⟨_, rfl, ?_, ?_, ?_, ?_⟩ <;> dsimp only <;> intro h0
  · rw [if_pos h0, min_comm]
  · rw [h0]
    norm_num
  · rw [if_pos h0, min_comm]
  · rw [h0]
    norm_num

/-- Witness for C4 at a concrete tenant and concrete request counts. -/
theorem C4_usage_percentages_witness :
    ∃ u : UsageSummary,
      get_usage ownerUser 500 5000 0 0 0 0 = .ok u ∧
      (u.daily_limit > 0 →
        u.daily_percent = min 100 ((500 : ℚ) / (u.daily_limit : ℚ) * 100)) ∧
      (u.daily_limit = 0 → u.daily_percent = 0) ∧
      (u.monthly_limit > 0 →
        u.monthly_percent = min 100 ((5000 : ℚ) / (u.monthly_limit : ℚ) * 100)) ∧
      (u.monthly_limit = 0 → u.monthly_percent = 0) :=
  C4_usage_percentages ownerUser tenantAcme rfl 500 5000 0 0 0 0

/-- Flipping a status twice restores it. -/
theorem toggleStatus_toggleStatus (s : ApiKeyStatus) : toggleStatus (toggleStatus s) = s := by
  cases s <;> rfl

/-- Row updates that keep `p` invariant and are involutive cancel when
applied twice over the whole table. -/
theorem updateWhere_invol (p : ApiKey → Bool) (f : ApiKey → ApiKey)
    (hp : ∀ k, p (f k) = p k) (hff : ∀ k, f (f k) = k) (l : List ApiKey) :
    updateWhere p f (updateWhere p f l) = l := by
  induction l with
  | nil => rfl
  | cons x xs ih =>
    simp only [updateWhere, List.map_cons] at ih ⊢
    rw [ih]
    by_cases hb : p x = true
    · simp [hb, hp, hff]
    · simp [hb]

/-- A row found before an update that keeps `p` invariant is found again
afterwards, updated. -/
theorem find?_updateWhere_some (p : ApiKey → Bool) (f : ApiKey → ApiKey)
    (hp : ∀ k, p (f k) = p k) (l : List ApiKey) (a : ApiKey)
    (hf : l.find? p = some a) :
    (updateWhere p f l).find? p = some (f a) := by
  have hpg : p ∘ (fun k => if p k then f k else k) = p := by
    funext j
    by_cases hb : p j = true <;> simp [hb, hp]
  rw [updateWhere, List.find?_map, hpg, hf]
  have hpa : p a = true := List.find?_some hf
  simp [hpa]

/-- C5: for an existing key of the caller's tenant, `rotate_api_key`
succeeds returning the fresh secret, stores the fresh secret on the
matching row with `key_prefix` recomputed as its first 10 characters, and
leaves every other stored field of that row (and every other row)
unchanged. -/
theorem C5_rotate_replaces_only_secret (user : User) (t : Tenant) (keys : List ApiKey)
    (key_id new_key : String) (h : user.tenant = some t)
    (k : ApiKey) (hk : k ∈ keys) (hid : k.id = key_id) (ht : k.tenant_id = t.id) :
    (∃ pk : PortalApiKey, (rotate_api_key keys user key_id new_key).2 = .ok pk ∧
      pk.key = some new_key) ∧
    List.Forall₂ (fun old new : ApiKey =>
      (old.id = key_id ∧ old.tenant_id = t.id →
        new.key = new_key ∧ ApiKey.key_prefix new = new_key.take 10 ∧
        new.id = old.id ∧ new.tenant_id = old.tenant_id ∧ new.name = old.name ∧
        new.status = old.status ∧ new.quota_daily = old.quota_daily ∧
        new.quota_monthly = old.quota_monthly ∧
        new.rate_limit_rps = old.rate_limit_rps ∧
        new.rate_limit_burst = old.rate_limit_burst ∧
        new.created_at = old.created_at ∧ new.last_used_at = old.last_used_at) ∧
      (¬(old.id = key_id ∧ old.tenant_id = t.id) → new = old))
      keys (rotate_api_key keys user key_id new_key).1 := by
  have hreq : require_tenant user = .ok t := require_tenant_ok h
  cases hf : keys.find? (keyQuery key_id t.id) with
  | none =>
    exact absurd (keyQuery_eq_true.mpr ⟨hid, ht⟩) (List.find?_eq_none.mp hf k hk)
  | some a =>
    constructor
    · refine ⟨({ a with key := new_key, key_prefix := new_key.take 10 } : ApiKey).toPortal
        (some new_key), ?_, rfl⟩
      simp [rotate_api_key, hreq, hf]
    · have hstate : (rotate_api_key keys user key_id new_key).1 =
          keys.map (fun j => if keyQuery key_id t.id j then
            { j with key := new_key, key_prefix := new_key.take 10 } else j) := by
        simp [rotate_api_key, hreq, hf, updateWhere]
      rw [hstate, List.forall₂_map_right_iff, List.forall₂_same]
      intro x hx
      by_cases hp : x.id = key_id ∧ x.tenant_id = t.id
      · have hb : keyQuery key_id t.id x = true := keyQuery_eq_true.mpr hp
        simp [hb, hp]
      · have hb : ¬ keyQuery key_id t.id x = true := fun hc => hp (keyQuery_eq_true.mp hc)
        simp [hb, hp]

/-- Witness for C5 on a concrete stored key. -/
theorem C5_rotate_replaces_only_secret_witness :
    (∃ pk : PortalApiKey,
      (rotate_api_key [sampleKey] ownerUser "key-1" "hx_newsecret_xyz").2 = .ok pk ∧
      pk.key = some "hx_newsecret_xyz") ∧
    List.Forall₂ (fun old new : ApiKey =>
      (old.id = "key-1" ∧ old.tenant_id = tenantAcme.id →
        new.key = "hx_newsecret_xyz" ∧
        ApiKey.key_prefix new = ("hx_newsecret_xyz" : String).take 10 ∧
        new.id = old.id ∧ new.tenant_id = old.tenant_id ∧ new.name = old.name ∧
        new.status = old.status ∧ new.quota_daily = old.quota_daily ∧
        new.quota_monthly = old.quota_monthly ∧
        new.rate_limit_rps = old.rate_limit_rps ∧
        new.rate_limit_burst = old.rate_limit_burst ∧
        new.created_at = old.created_at ∧ new.last_used_at = old.last_used_at) ∧
      (¬(old.id = "key-1" ∧ old.tenant_id = tenantAcme.id) → new = old))
      [sampleKey] (rotate_api_key [sampleKey] ownerUser "key-1" "hx_newsecret_xyz").1 :=
  C5_rotate_replaces_only_secret ownerUser tenantAcme [sampleKey] "key-1"
    "hx_newsecret_xyz" rfl sampleKey (by simp) rfl rfl

/-- C6: `toggle_api_key` maps status active to disabled and disabled to
active on the selected key of the caller's tenant (leaving other rows
alone), applying it twice restores the original stored state, and the
returned `is_active` field equals (returned status == "active"). -/
theorem C6_toggle_flips_and_involutes (user : User) (t : Tenant) (keys : List ApiKey)
    (key_id : String) (h : user.tenant = some t)
    (k : ApiKey) (hk : k ∈ keys) (hid : k.id = key_id) (ht : k.tenant_id = t.id) :
    List.Forall₂ (fun old new : ApiKey =>
      (old.id = key_id ∧ old.tenant_id = t.id →
        (old.status = .ACTIVE → new.status = .DISABLED) ∧
        (old.status = .DISABLED → new.status = .ACTIVE)) ∧
      (¬(old.id = key_id ∧ old.tenant_id = t.id) → new = old))
      keys (toggle_api_key keys user key_id).1 ∧
    (toggle_api_key (toggle_api_key keys user key_id).1 user key_id).1 = keys ∧
    (∃ pk : PortalApiKey, (toggle_api_key keys user key_id).2 = .ok pk ∧
      (pk.is_active = true ↔ pk.status = "active")) := by
  have hreq : require_tenant user = .ok t := require_tenant_ok h
  cases hf : keys.find? (keyQuery key_id t.id) with
  | none =>
    exact absurd (keyQuery_eq_true.mpr ⟨hid, ht⟩) (List.find?_eq_none.mp hf k hk)
  | some a =>
    have hp : ∀ j : ApiKey,
        keyQuery key_id t.id { j with status := toggleStatus j.status } =
          keyQuery key_id t.id j := fun _ => rfl
    have hff : ∀ j : ApiKey,
        ({ ({ j with status := toggleStatus j.status } : ApiKey) with
            status := toggleStatus (toggleStatus j.status) } : ApiKey) = j := by
      intro j
      rw [toggleStatus_toggleStatus]
    have hstate : (toggle_api_key keys user key_id).1 =
        updateWhere (keyQuery key_id t.id)
          (fun j => { j with status := toggleStatus j.status }) keys := by
      simp [toggle_api_key, hreq, hf]
    refine ⟨?_, ?_, ?_⟩
    · rw [hstate, updateWhere, List.forall₂_map_right_iff, List.forall₂_same]
      intro x hx
      by_cases hxp : x.id = key_id ∧ x.tenant_id = t.id
      · have hb : keyQuery key_id t.id x = true := keyQuery_eq_true.mpr hxp
        refine ⟨fun _ => ⟨fun hs => ?_, fun hs => ?_⟩, fun hnp => absurd hxp hnp⟩ <;>
          simp [hb, toggleStatus, hs]
      · have hb : ¬ keyQuery key_id t.id x = true := fun hc => hxp (keyQuery_eq_true.mp hc)
        simp [hb, hxp]
    · have hfind2 : (updateWhere (keyQuery key_id t.id)
          (fun j => { j with status := toggleStatus j.status }) keys).find?
            (keyQuery key_id t.id) =
          some { a with status := toggleStatus a.status } :=
        find?_updateWhere_some _ _ hp keys a hf
      rw [hstate]
      simp only [toggle_api_key, hreq, hfind2]
      exact updateWhere_invol _ _ hp hff keys
    · refine ⟨({ a with status := toggleStatus a.status } : ApiKey).toPortal none, ?_, ?_⟩
      · simp [toggle_api_key, hreq, hf]
      · cases hs : a.status <;>
          simp [ApiKey.toPortal, ApiKey.is_active, toggleStatus, ApiKeyStatus.value, hs]

/-- Witness for C6 on a concrete stored key. -/
theorem C6_toggle_flips_and_involutes_witness :
    List.Forall₂ (fun old new : ApiKey =>
      (old.id = "key-1" ∧ old.tenant_id = tenantAcme.id →
        (old.status = .ACTIVE → new.status = .DISABLED) ∧
        (old.status = .DISABLED → new.status = .ACTIVE)) ∧
      (¬(old.id = "key-1" ∧ old.tenant_id = tenantAcme.id) → new = old))
      [sampleKey] (toggle_api_key [sampleKey] ownerUser "key-1").1 ∧
    (toggle_api_key (toggle_api_key [sampleKey] ownerUser "key-1").1 ownerUser
      "key-1").1 = [sampleKey] ∧
    (∃ pk : PortalApiKey, (toggle_api_key [sampleKey] ownerUser "key-1").2 = .ok pk ∧
      (pk.is_active = true ↔ pk.status = "active")) :=
  C6_toggle_flips_and_involutes ownerUser tenantAcme [sampleKey] "key-1" rfl
    sampleKey (by simp) rfl rfl

set_option maxRecDepth 8000 in
/-- C8: the rate limiter advances `tokens = min(capacity, tokens +
elapsed_seconds * refill_rate)` on each request, admits and decrements when
at least one token is available, and otherwise rejects with
`retry_after = (1 - tokens) / refill_rate`; with `rate_limit_rps = 10` and
`burst = 20`, of 30 requests issued instantaneously the first 20 are
admitted and the remaining 10 are rejected with `retry_after = 1/10 > 0`. -/
theorem C8_rate_limiter_token_bucket :
    (∀ (b : Bucket) (now : ℚ),
      (1 ≤ min b.capacity (b.tokens + (now - b.last_refill) * b.refill_rate) →
        b.request now =
          ({ b with
              tokens := min b.capacity (b.tokens + (now - b.last_refill) * b.refill_rate) - 1
              last_refill := now }, .admitted)) ∧
      (¬ 1 ≤ min b.capacity (b.tokens + (now - b.last_refill) * b.refill_rate) →
        b.request now =
          ({ b with
              tokens := min b.capacity (b.tokens + (now - b.last_refill) * b.refill_rate)
              last_refill := now },
            .rateLimited
              ((1 - min b.capacity (b.tokens + (now - b.last_refill) * b.refill_rate)) /
                b.refill_rate)))) ∧
    ((Bucket.serve { tokens := 20, capacity := 20, refill_rate := 10, last_refill := 0 }
        (List.replicate 30 0)).2 =
      List.replicate 20 RateDecision.admitted ++
        List.replicate 10 (RateDecision.rateLimited (1 / 10)) ∧
      (0 : ℚ) < 1 / 10) := by
  refine ⟨fun b now => ⟨fun h1 => ?_, fun h1 => ?_⟩, ?_, by norm_num⟩
  · simp only [Bucket.request]
    rw [if_pos h1]
  · simp only [Bucket.request]
    rw [if_neg h1]
  · show (Bucket.serve ⟨20, 20, 10, 0⟩
        [0, 0, 0, 0, 0, 0, 0, 0, 0, 0, 0, 0, 0, 0, 0, 0, 0, 0, 0, 0, 0, 0, 0, 0, 0, 0,
          0, 0, 0, 0]).2 =
      ([.admitted, .admitted, .admitted, .admitted, .admitted, .admitted, .admitted,
        .admitted, .admitted, .admitted, .admitted, .admitted, .admitted, .admitted,
        .admitted, .admitted, .admitted, .admitted, .admitted, .admitted] ++
       [.rateLimited (1 / 10), .rateLimited (1 / 10), .rateLimited (1 / 10),
        .rateLimited (1 / 10), .rateLimited (1 / 10), .rateLimited (1 / 10),
        .rateLimited (1 / 10), .rateLimited (1 / 10), .rateLimited (1 / 10),
        .rateLimited (1 / 10)])
    norm_num [Bucket.serve, Bucket.request, min_def]

/-- Witness for C8: a full bucket admits the first instantaneous request. -/
theorem C8_rate_limiter_token_bucket_witness :
    Bucket.request { tokens := 20, capacity := 20, refill_rate := 10, last_refill := 0 } 0 =
      ({ tokens := min (20 : ℚ) (20 + (0 - 0) * 10) - 1, capacity := 20,
         refill_rate := 10, last_refill := 0 }, RateDecision.admitted) :=
  (C8_rate_limiter_token_bucket.1
      { tokens := 20, capacity := 20, refill_rate := 10, last_refill := 0 } 0).1
    (by norm_num [min_def])

/-- Sample not-yet-verified user for the signup re-registration flow. -/
def pendingUser : User :=
  { id := "user-2", email := "new@corp.test", name := "Old Name" }

/-- Sample auth database containing only `pendingUser`. -/
def authDB : AuthDB := { users := [pendingUser], tenants := [], plans := [] }

/-- Sample signup request reusing `pendingUser`'s email. -/
def signupReq : SignupRequest :=
  { email := "new@corp.test", password := "hunter2hunter2", name := "New Name"
    company_name := "Corp" }

/-- C9: signup with the email of an existing user: if that user is already
verified, it fails with 400 "Email already registered" and leaves the
database unchanged (no User, no Tenant created); if the user is not
verified, it creates no new User and no new Tenant, but overwrites the
existing user's password_hash and name with the request's values and
installs a fresh OTP expiring 10 minutes (600 seconds) later, answering
with a success response. -/
theorem C9_signup_existing_email (db : AuthDB) (data : SignupRequest)
    (hash_password : String → String) (otp gen_tenant_id gen_user_id : String)
    (now : Int) (ex : User)
    (hfind : db.users.find? (fun u => u.email == data.email) = some ex) :
    (ex.email_verified = true →
      signup db data hash_password otp gen_tenant_id gen_user_id now =
        (db, .error ⟨400, "Email already registered"⟩)) ∧
    (ex.email_verified = false →
      (signup db data hash_password otp gen_tenant_id gen_user_id now).2 =
        .ok { message := "Verification code sent to your email", email := data.email,
              requires_verification := true } ∧
      (signup db data hash_password otp gen_tenant_id gen_user_id now).1.tenants =
        db.tenants ∧
      (signup db data hash_password otp gen_tenant_id gen_user_id now).1.plans =
        db.plans ∧
      List.Forall₂ (fun old new : User =>
        (old.email = data.email →
          new.password_hash = some (hash_password data.password) ∧
          new.name = data.name ∧
          new.email_verification_token = some otp ∧
          new.email_verification_expires = some (now + 600) ∧
          new.id = old.id ∧ new.email = old.email ∧ new.role = old.role ∧
          new.tenant_id = old.tenant_id ∧ new.email_verified = old.email_verified ∧
          new.avatar_url = old.avatar_url ∧ new.is_active = old.is_active) ∧
        (¬ old.email = data.email → new = old))
        db.users
        (signup db data hash_password otp gen_tenant_id gen_user_id now).1.users) := by
  constructor
  · intro hv
    simp [signup, hfind, hv]
  · intro hv
    have h2 : signup db data hash_password otp gen_tenant_id gen_user_id now =
        ({ db with users := db.users.map (fun u =>
            if u.email == data.email then
              { u with
                  email_verification_token := some otp
                  email_verification_expires := some (now + 600)
                  password_hash := some (hash_password data.password)
                  name := data.name }
            else u) },
         .ok { message := "Verification code sent to your email", email := data.email,
               requires_verification := true }) := by
      simp [signup, hfind, hv]
    rw [h2]
    refine ⟨rfl, rfl, rfl, ?_⟩
    dsimp only
    rw [List.forall₂_map_right_iff, List.forall₂_same]
    intro x hx
    by_cases he : x.email = data.email
    · simp [he]
    · simp [he]

/-- Witness for C9 on a concrete database holding an unverified user. -/
theorem C9_signup_existing_email_witness :
    (pendingUser.email_verified = true →
      signup authDB signupReq (fun s => "bcrypt:" ++ s) "123456" "tenant-9" "user-9" 0 =
        (authDB, .error ⟨400, "Email already registered"⟩)) ∧
    (pendingUser.email_verified = false →
      (signup authDB signupReq (fun s => "bcrypt:" ++ s) "123456" "tenant-9" "user-9"
          0).2 =
        .ok { message := "Verification code sent to your email", email := signupReq.email,
              requires_verification := true } ∧
      (signup authDB signupReq (fun s => "bcrypt:" ++ s) "123456" "tenant-9" "user-9"
          0).1.tenants = authDB.tenants ∧
      (signup authDB signupReq (fun s => "bcrypt:" ++ s) "123456" "tenant-9" "user-9"
          0).1.plans = authDB.plans ∧
      List.Forall₂ (fun old new : User =>
        (old.email = signupReq.email →
          new.password_hash = some ((fun s => "bcrypt:" ++ s) signupReq.password) ∧
          new.name = signupReq.name ∧
          new.email_verification_token = some "123456" ∧
          new.email_verification_expires = some ((0 : Int) + 600) ∧
          new.id = old.id ∧ new.email = old.email ∧ new.role = old.role ∧
          new.tenant_id = old.tenant_id ∧ new.email_verified = old.email_verified ∧
          new.avatar_url = old.avatar_url ∧ new.is_active = old.is_active) ∧
        (¬ old.email = signupReq.email → new = old))
        authDB.users
        (signup authDB signupReq (fun s => "bcrypt:" ++ s) "123456" "tenant-9" "user-9"
          0).1.users) :=
  C9_signup_existing_email authDB signupReq (fun s => "bcrypt:" ++ s) "123456"
    "tenant-9" "user-9" 0 pendingUser rfl

/-- The reset endpoint always answers with the same message. -/
theorem forgot_password_message (db : AuthDB) (email gen_token : String) (now : Int) :
    (forgot_password db email gen_token now).2 =
      "If your email is registered, you will receive a password reset link" := by
  unfold forgot_password
  cases hf : db.users.find? (fun u => u.email == email) with
  | none => rfl
  | some u =>
    by_cases hp : truthyStr u.password_hash = true <;> simp [hp]

/-- C10: the HTTP response of `forgot_password` is identical (the fixed
message) across any two invocations, whether or not the supplied email
belongs to a registered user with a password — it reveals nothing about
account existence, and the endpoint never raises for an unknown email. -/
theorem C10_forgot_password_uniform_response (db₁ db₂ : AuthDB)
    (email₁ email₂ gen_token₁ gen_token₂ : String) (now₁ now₂ : Int) :
    (forgot_password db₁ email₁ gen_token₁ now₁).2 =
      "If your email is registered, you will receive a password reset link" ∧
    (forgot_password db₁ email₁ gen_token₁ now₁).2 =
      (forgot_password db₂ email₂ gen_token₂ now₂).2 := by
  refine ⟨forgot_password_message db₁ email₁ gen_token₁ now₁, ?_⟩
  rw [forgot_password_message, forgot_password_message]

end Heliox
